import Mathlib

/-!
Verification of the ESP32-C3 power-state handler (`soc/riscv/esp32c3/power.c`)
and of the `lsdir` routine of the filesystem sample, via a shallow embedding:
each C function is translated to a Lean function that returns the sequence of
hardware / logging effects it performs.
-/

/-- The platform power-state enumeration (`enum pm_state`, from the
platform power-management header; the handler switches on it). -/
inductive pm_state where
  | PM_STATE_ACTIVE
  | PM_STATE_RUNTIME_IDLE
  | PM_STATE_SUSPEND_TO_IDLE
  | PM_STATE_STANDBY
  | PM_STATE_SUSPEND_TO_RAM
  | PM_STATE_SUSPEND_TO_DISK
  | PM_STATE_SOFT_OFF
deriving DecidableEq, Repr

/-- Modelled from the spec: the numeric value of each power state in the
platform enumeration (declaration order, starting at 0); the header is not
part of the excerpt.  Used only as the `%u` argument of the debug log. -/
def pm_state.toNat : pm_state → Nat
  | .PM_STATE_ACTIVE => 0
  | .PM_STATE_RUNTIME_IDLE => 1
  | .PM_STATE_SUSPEND_TO_IDLE => 2
  | .PM_STATE_STANDBY => 3
  | .PM_STATE_SUSPEND_TO_RAM => 4
  | .PM_STATE_SUSPEND_TO_DISK => 5
  | .PM_STATE_SOFT_OFF => 6

/-- Vendor sleep-API power domains (`esp_sleep_pd_domain_t`); only the
RTC-peripheral domain is used by the handler, the others witness that the
argument is a genuine choice. -/
inductive esp_sleep_pd_domain where
  | ESP_PD_DOMAIN_RTC_PERIPH
  | ESP_PD_DOMAIN_RTC_SLOW_MEM
  | ESP_PD_DOMAIN_RTC_FAST_MEM
  | ESP_PD_DOMAIN_XTAL
deriving DecidableEq, Repr

/-- Vendor sleep-API power-down options (`esp_sleep_pd_option_t`). -/
inductive esp_sleep_pd_option where
  | ESP_PD_OPTION_OFF
  | ESP_PD_OPTION_ON
  | ESP_PD_OPTION_AUTO
deriving DecidableEq, Repr

/-- Modelled from the spec: `MSTATUS_IEN`, the machine-status
interrupt-enable bit (bit 3 of RISC-V `mstatus`), defined in the SoC header
which is not part of the excerpt.  The handler passes it as the constant
unlock key. -/
def MSTATUS_IEN : Nat := 8

/-- One observable effect of the handler: a vendor sleep-API call, the
interrupt-mask unlock, the `wfi` instruction, a debug-severity log line, or
an abort (never emitted by this code; present so that absence of aborts is
expressible). -/
inductive Effect where
  | sleepPdConfig (domain : esp_sleep_pd_domain) (opt : esp_sleep_pd_option)
  | deepSleepStart
  | irqUnlock (key : Nat)
  | wfi
  | lightSleepStart
  | logDbg (fmt : String) (arg : Nat)
  | abortCall
deriving DecidableEq, Repr

/-- Whether an effect is a hardware action (everything except a log line is:
register writes, sleep-entry calls, the halt instruction, an abort). -/
def Effect.isHW : Effect → Bool
  | .logDbg _ _ => false
  | _ => true

/-- Result of running one of the two entry points: the sequence of effects
it performs, and whether it returns to its caller along the normal path. -/
structure RunResult where
  trace : List Effect
  returns : Bool
deriving DecidableEq, Repr

/-- The hardware actions of a run, in order (log lines filtered out). -/
def hwCalls (r : RunResult) : List Effect :=
  r.trace.filter Effect.isHW

/-- The log emissions of a run, in order. -/
def logCalls (r : RunResult) : List Effect :=
  r.trace.filter fun e => !e.isHW

/-- Shallow embedding of `pm_state_set` from `soc/riscv/esp32c3/power.c`:
soft-off forces the RTC-peripheral domain on and starts deep sleep; standby
does nothing; any other state logs a debug diagnostic.  The substate
identifier is unused (`ARG_UNUSED`).  `returns := false` on the soft-off
branch is modelled from the spec: `esp_deep_sleep_start` does not return
(its body is outside the excerpt). -/
def pm_state_set (state : pm_state) (substate_id : Nat) : RunResult :=
  let _ := substate_id
  match state with
  | .PM_STATE_SOFT_OFF =>
      { trace := [.sleepPdConfig .ESP_PD_DOMAIN_RTC_PERIPH .ESP_PD_OPTION_ON,
                  .deepSleepStart],
        returns := false }
  | .PM_STATE_STANDBY =>
      { trace := [], returns := true }
  | s =>
      { trace := [.logDbg "Unsupported power state %u" s.toNat],
        returns := true }

/-- Shallow embedding of `pm_state_exit_post_ops` from
`soc/riscv/esp32c3/power.c`: soft-off does nothing; standby unlocks the
interrupt mask with the constant key `MSTATUS_IEN`, executes `wfi`, then
starts light sleep; any other state logs a debug diagnostic.  The substate
identifier is unused (`ARG_UNUSED`). -/
def pm_state_exit_post_ops (state : pm_state) (substate_id : Nat) : RunResult :=
  let _ := substate_id
  match state with
  | .PM_STATE_SOFT_OFF =>
      { trace := [], returns := true }
  | .PM_STATE_STANDBY =>
      { trace := [.irqUnlock MSTATUS_IEN, .wfi, .lightSleepStart],
        returns := true }
  | s =>
      { trace := [.logDbg "Unsupported power state %u" s.toNat],
        returns := true }

/-- The keys of the interrupt-mask unlock calls in a trace, in order. -/
def unlockKeys (tr : List Effect) : List Nat :=
  tr.filterMap fun e =>
    match e with
    | .irqUnlock k => some k
    | _ => none

/-- Modelled from the spec: the RISC-V `irq_unlock(key)` primitive (outside
the excerpt) restores the `mstatus` interrupt-enable bit from the key, so the
bit is set after the call exactly when it was set before or the key carries
it.  Folding this over a trace gives the interrupt-enable state after the
trace, from the state `en` the caller had established. -/
def irqEnabledAfter (en : Bool) (tr : List Effect) : Bool :=
  tr.foldl
    (fun e eff =>
      match eff with
      | .irqUnlock key => e || decide (key &&& MSTATUS_IEN ≠ 0)
      | _ => e)
    en

/- ------------------------------------------------------------------ -/
/- The filesystem sample: `lsdir` from the unnamed source file.        -/
/- ------------------------------------------------------------------ -/

/-- A directory entry as filled in by `fs_readdir` (`struct fs_dirent`):
the bytes of its name (a leading 0 byte means end-of-directory), whether it
is a directory (`FS_DIR_ENTRY_DIR`), and its size. -/
structure fs_dirent where
  name : List Nat
  is_dir : Bool
  size : Nat
deriving DecidableEq, Repr

/-- The first byte of an entry name (`entry.name[0]`; the terminating 0 of
an empty C string when the list is empty). -/
def fs_dirent.headByte (e : fs_dirent) : Nat :=
  e.name.headD 0

/-- The read loop of `lsdir`: successive `fs_readdir` outcomes are given as
a list of (return code, entry) pairs; once the list is exhausted the
directory yields end-of-dir (code 0, empty name).  The loop stops at the
first nonzero code or empty name, counting the entries listed before that;
it yields the code it stopped on and the count. -/
def lsdirLoop : List (Int × fs_dirent) → Nat → Int × Nat
  | [], count => (0, count)
  | (res, e) :: rest, count =>
    if res ≠ 0 ∨ e.headByte = 0 then (res, count)
    else lsdirLoop rest (count + 1)

/-- Result of `lsdir`: its return value, and whether `fs_closedir` was
called on the directory handle before returning. -/
structure LsdirResult where
  ret : Int
  closed : Bool
deriving DecidableEq, Repr

/-- Shallow embedding of `lsdir` from the filesystem sample: if
`fs_opendir` fails (nonzero code) return that code without closing; else
run the read loop, close the directory, and return the loop's code if it is
nonzero, the entry count otherwise. -/
def lsdir (opendirRes : Int) (reads : List (Int × fs_dirent)) : LsdirResult :=
  if opendirRes ≠ 0 then
    { ret := opendirRes, closed := false }
  else
    let p := lsdirLoop reads 0
    { ret := if p.1 = 0 then (p.2 : Int) else p.1, closed := true }

/-- The code of the first failing `fs_readdir` call that `lsdir`'s loop
actually performs, if any (reads after the first empty-name entry are never
performed). -/
def firstReadErr : List (Int × fs_dirent) → Option Int
  | [] => none
  | (res, e) :: rest =>
    if res ≠ 0 then some res
    else if e.headByte = 0 then none
    else firstReadErr rest

/-- The number of entries `lsdir`'s loop lists: those before the first
failing read or end-of-dir marker. -/
def listedCount : List (Int × fs_dirent) → Nat
  | [] => 0
  | (res, e) :: rest =>
    if res ≠ 0 ∨ e.headByte = 0 then 0
    else listedCount rest + 1

/- ------------------------------------------------------------------ -/
/- Helper lemmas                                                       -/
/- ------------------------------------------------------------------ -/

/-- The read loop stops on the first failing read (yielding its code) or on
end-of-dir (yielding 0), and counts exactly the listed entries. -/
theorem lsdirLoop_eq (reads : List (Int × fs_dirent)) :
    ∀ c, lsdirLoop reads c = ((firstReadErr reads).getD 0, c + listedCount reads) := by
  induction reads with
  | nil =>
    intro c
    simp [lsdirLoop, firstReadErr, listedCount]
  | cons p rest ih =>
    intro c
    obtain ⟨res, e⟩ := p
    by_cases h1 : res ≠ 0
    · simp [lsdirLoop, firstReadErr, listedCount, h1]
    · push_neg at h1
      by_cases h2 : e.headByte = 0
      · simp [lsdirLoop, firstReadErr, listedCount, h1, h2]
      · simp only [lsdirLoop, firstReadErr, listedCount, h1, h2, ih,
          if_neg, ite_false]
        simp [h2]
        omega

/-- A code recorded as the first read failure is nonzero. -/
theorem firstReadErr_ne_zero (reads : List (Int × fs_dirent)) :
    ∀ err : Int, firstReadErr reads = some err → err ≠ 0 := by
  induction reads with
  | nil =>
    intro err h
    simp [firstReadErr] at h
  | cons p rest ih =>
    intro err h
    obtain ⟨res, e⟩ := p
    by_cases h1 : res ≠ 0
    · simp [firstReadErr, h1] at h
      omega
    · push_neg at h1
      by_cases h2 : e.headByte = 0
      · simp [firstReadErr, h1, h2] at h
      · simp [firstReadErr, h1, h2] at h
        exact ih err h

/- ------------------------------------------------------------------ -/
/- Claim theorems                                                      -/
/- ------------------------------------------------------------------ -/

/-- Claim C1: for every substate value, entering the soft-off state
configures the RTC-peripheral power domain to stay on and then requests
deep sleep; these are exactly the two recorded calls, in that order, and
the whole trace consists of exactly these two hardware calls. -/
theorem soft_off_enter_pd_then_deep_sleep (s : Nat) :
    (pm_state_set .PM_STATE_SOFT_OFF s).trace =
      [.sleepPdConfig .ESP_PD_DOMAIN_RTC_PERIPH .ESP_PD_OPTION_ON,
       .deepSleepStart] ∧
    hwCalls (pm_state_set .PM_STATE_SOFT_OFF s) =
      [.sleepPdConfig .ESP_PD_DOMAIN_RTC_PERIPH .ESP_PD_OPTION_ON,
       .deepSleepStart] :=
  ⟨rfl, rfl⟩

/-- Claim C2: for every substate value, exit-post-ops in the standby state
performs exactly three hardware actions, in order: unlock the interrupt
mask, execute `wfi`, invoke light-sleep entry; the whole trace consists of
exactly these three hardware actions. -/
theorem standby_exit_three_actions (s : Nat) :
    (pm_state_exit_post_ops .PM_STATE_STANDBY s).trace =
      [.irqUnlock MSTATUS_IEN, .wfi, .lightSleepStart] ∧
    hwCalls (pm_state_exit_post_ops .PM_STATE_STANDBY s) =
      [.irqUnlock MSTATUS_IEN, .wfi, .lightSleepStart] :=
  ⟨rfl, rfl⟩

/-- Claim C3: for every power state outside soft-off and standby and every
substate, both entry points perform zero hardware side effects, return
normally, and emit exactly one debug log line. -/
theorem other_states_log_only (st : pm_state)
    (h1 : st ≠ .PM_STATE_SOFT_OFF) (h2 : st ≠ .PM_STATE_STANDBY) (s : Nat) :
    hwCalls (pm_state_set st s) = [] ∧
    logCalls (pm_state_set st s) =
      [.logDbg "Unsupported power state %u" st.toNat] ∧
    (pm_state_set st s).returns = true ∧
    hwCalls (pm_state_exit_post_ops st s) = [] ∧
    logCalls (pm_state_exit_post_ops st s) =
      [.logDbg "Unsupported power state %u" st.toNat] ∧
    (pm_state_exit_post_ops st s).returns = true := by
  cases st <;>
    first
      | exact absurd rfl h1
      | exact absurd rfl h2
      | exact ⟨rfl, rfl, rfl, rfl, rfl, rfl⟩

/-- Witness for claim C3 at the active state and substate 0. -/
theorem other_states_log_only_witness :
    hwCalls (pm_state_set .PM_STATE_ACTIVE 0) = [] ∧
    logCalls (pm_state_set .PM_STATE_ACTIVE 0) =
      [.logDbg "Unsupported power state %u" pm_state.PM_STATE_ACTIVE.toNat] ∧
    (pm_state_set .PM_STATE_ACTIVE 0).returns = true ∧
    hwCalls (pm_state_exit_post_ops .PM_STATE_ACTIVE 0) = [] ∧
    logCalls (pm_state_exit_post_ops .PM_STATE_ACTIVE 0) =
      [.logDbg "Unsupported power state %u" pm_state.PM_STATE_ACTIVE.toNat] ∧
    (pm_state_exit_post_ops .PM_STATE_ACTIVE 0).returns = true :=
  other_states_log_only .PM_STATE_ACTIVE (by decide) (by decide) 0

/-- Claim C4: the substate identifier never influences behavior: for every
state and every pair of substate values, both entry points produce
identical results (same effect sequence, same return behavior). -/
theorem substate_ignored (st : pm_state) (s1 s2 : Nat) :
    pm_state_set st s1 = pm_state_set st s2 ∧
    pm_state_exit_post_ops st s1 = pm_state_exit_post_ops st s2 :=
  ⟨rfl, rfl⟩

/-- Claim C5: for every substate value, entering the standby state performs
zero actions: no hardware action, no sleep routine, no log line. -/
theorem standby_enter_noop (s : Nat) :
    pm_state_set .PM_STATE_STANDBY s = { trace := [], returns := true } :=
  rfl

/-- Claim C6: for every substate value, exit-post-ops in the soft-off state
performs zero actions: no hardware action and no log line. -/
theorem soft_off_exit_noop (s : Nat) :
    pm_state_exit_post_ops .PM_STATE_SOFT_OFF s =
      { trace := [], returns := true } :=
  rfl

/-- Claim C7: both entry points are total over all (state, substate) inputs
and have no failure path: no abort appears in any trace, exit-post-ops
always returns normally, and pm_state_set returns normally except through
the deliberate soft-off deep-sleep divergence; every input falls into one
of the three defined branches. -/
theorem power_handlers_total_no_failure (st : pm_state) (s : Nat) :
    Effect.abortCall ∉ (pm_state_set st s).trace ∧
    Effect.abortCall ∉ (pm_state_exit_post_ops st s).trace ∧
    (pm_state_exit_post_ops st s).returns = true ∧
    ((pm_state_set st s).returns = true ∨ st = .PM_STATE_SOFT_OFF) := by
  cases st <;>
    exact ⟨by simp [pm_state_set], by simp [pm_state_exit_post_ops], rfl,
      by first | exact Or.inl rfl | exact Or.inr rfl⟩

/-- Claim C8: when pm_state_set is called with the soft-off state, the
deep-sleep entry call does not return along the normal path and is the last
effect of the operation: nothing executes after it. -/
theorem soft_off_deep_sleep_no_return (s : Nat) :
    (pm_state_set .PM_STATE_SOFT_OFF s).returns = false ∧
    (pm_state_set .PM_STATE_SOFT_OFF s).trace.getLast? =
      some .deepSleepStart :=
  ⟨rfl, rfl⟩

/-- Claim C9: in the standby branch of exit-post-ops, the only interrupt
unlock uses the fixed constant key MSTATUS_IEN, so interrupts are enabled
after the call whatever interrupt-mask state the caller had established. -/
theorem standby_exit_unlock_constant_key (s : Nat) :
    unlockKeys (pm_state_exit_post_ops .PM_STATE_STANDBY s).trace =
      [MSTATUS_IEN] ∧
    ∀ en : Bool,
      irqEnabledAfter en (pm_state_exit_post_ops .PM_STATE_STANDBY s).trace =
        true := by
  refine ⟨rfl, ?_⟩
  intro en
  cases en <;> rfl

/-- Claim C10: lsdir returns the number of listed entries (a value >= 0)
when opening the directory and every readdir call succeed, and otherwise
returns the (nonzero) code of the first failing call; on every path except
an opendir failure the directory handle is closed before returning. -/
theorem lsdir_error_handling (opendirRes : Int)
    (reads : List (Int × fs_dirent)) :
    (opendirRes ≠ 0 →
      lsdir opendirRes reads = { ret := opendirRes, closed := false }) ∧
    (opendirRes = 0 → (lsdir opendirRes reads).closed = true) ∧
    (opendirRes = 0 → firstReadErr reads = none →
      (lsdir opendirRes reads).ret = (listedCount reads : Int) ∧
      0 ≤ (lsdir opendirRes reads).ret) ∧
    (opendirRes = 0 → ∀ err : Int, firstReadErr reads = some err →
      (lsdir opendirRes reads).ret = err ∧ err ≠ 0) := by
  refine ⟨?_, ?_, ?_, ?_⟩
  · intro h
    simp [lsdir, h]
  · intro h
    simp [lsdir, h]
  · intro h he
    subst h
    simp [lsdir, lsdirLoop_eq, he]
  · intro h err he
    subst h
    have hne := firstReadErr_ne_zero reads err he
    simp [lsdir, lsdirLoop_eq, he, hne]

/-- Witness for claim C10: an opendir failure returns the code unclosed; a
one-entry directory yields count 1 closed; a failing second read returns
its code. -/
theorem lsdir_error_handling_witness :
    lsdir (-2) [] = { ret := -2, closed := false } ∧
    (lsdir 0 [((0 : Int), ⟨[97], false, 3⟩)]).ret = 1 ∧
    (lsdir 0 [((0 : Int), ⟨[97], false, 3⟩)]).closed = true ∧
    (lsdir 0 [((0 : Int), ⟨[97], false, 3⟩),
              ((-5 : Int), ⟨[98], true, 0⟩)]).ret = -5 := by
  refine ⟨(lsdir_error_handling (-2) []).1 (by decide), ?_,
    (lsdir_error_handling 0 [((0 : Int), ⟨[97], false, 3⟩)]).2.1 rfl, ?_⟩
  · have h :=
      (lsdir_error_handling 0 [((0 : Int), ⟨[97], false, 3⟩)]).2.2.1 rfl
        (by decide)
    simpa using h.1
  · exact ((lsdir_error_handling 0
      [((0 : Int), ⟨[97], false, 3⟩), ((-5 : Int), ⟨[98], true, 0⟩)]).2.2.2
        rfl (-5) (by decide)).1
